import Mathlib

/-!
Verification of the exception-management orchestration core in `src/app.py`.

The program fans out one operator-supplied text to three agents
(classification, resolution suggestion, explanation).  The classification
and resolution agents validate the provider's reply with `json.loads` and,
on failure, substitute a `json.dumps` fallback object; the explanation
agent returns the provider's reply unvalidated.  The coordinator
`process_exception` collects the three results into a mapping, converting
a task-level exception into the string `"Error: <message>"`, and degrades
to an empty mapping if the fan-out machinery itself fails.

The external completion provider and the rendering of a
`json.JSONDecodeError` to a message string are opaque collaborators,
modelled by an explicit environment (`Env`).  Python exceptions are
modelled by `Except String`, carrying `str(e)`.  `json.loads` is modelled
by the executable recognizer `json_loads_ok` below (whitespace, strings
with escapes, numbers per the scanner's regular expression, the literals
`true`/`false`/`null`/`NaN`/`Infinity`/`-Infinity`, objects and arrays);
`json.dumps` on the fallback dictionaries by `dumps3` (default
`ensure_ascii` escaping and `", "` / `": "` separators).
-/

/-- The double-quote character, written by code point to keep string
delimiters out of character literals. -/
def qchar : Char := Char.ofNat 34

/-- The backslash character. -/
def bslash : Char := Char.ofNat 92

/-- The opening-brace character. -/
def lbrace : Char := Char.ofNat 123

/-- The closing-brace character. -/
def rbrace : Char := Char.ofNat 125

/-- JSON whitespace, as in the decoder's `[ \t\n\r]*` pattern. -/
def isWsChar (c : Char) : Bool := c = ' ' || c = '\t' || c = '\n' || c = '\r'

/-- Skip JSON whitespace. -/
def skipWs (s : List Char) : List Char := s.dropWhile isWsChar

/-- Hexadecimal digits accepted in a `\uXXXX` escape. -/
def isHexDig (c : Char) : Bool :=
  c.isDigit || ('a' ≤ c && c ≤ 'f') || ('A' ≤ c && c ≤ 'F')

/-- The single-character escapes accepted after a backslash in a JSON
string (besides `\uXXXX`). -/
def simpleEsc (c : Char) : Bool :=
  c = qchar || c = bslash || c = '/' || c = 'b' || c = 'f' || c = 'n' || c = 'r' || c = 't'

/-- Scan the body of a JSON string (the opening quote already consumed),
in the decoder's strict mode: unescaped control characters are rejected,
escapes are the eight simple ones and `\u` followed by four hex digits.
Returns the input remaining after the closing quote. -/
def parseString : List Char → Option (List Char)
  | [] => none
  | c :: r =>
    if c = qchar then some r
    else if c = bslash then
      match r with
      | [] => none
      | e :: r2 =>
        if e = 'u' then
          match r2 with
          | h1 :: h2 :: h3 :: h4 :: r3 =>
            if isHexDig h1 && isHexDig h2 && isHexDig h3 && isHexDig h4 then
              parseString r3
            else none
          | _ => none
        else if simpleEsc e then parseString r2
        else none
    else if c.toNat < 32 then none
    else parseString r

/-- Digits 1 through 9, as in the number pattern's `[1-9]`. -/
def digit19 (c : Char) : Bool := '1' ≤ c && c ≤ '9'

/-- Integer part of a JSON number: `0` or `[1-9]` followed by digits. -/
def parseIntPart : List Char → Option (List Char)
  | [] => none
  | c :: r =>
    if c = '0' then some r
    else if digit19 c then some (r.dropWhile Char.isDigit)
    else none

/-- Optional fraction part `(\.\d+)?`: consumed only when a dot is
followed by at least one digit. -/
def parseFrac (s : List Char) : List Char :=
  match s with
  | '.' :: c :: r => if c.isDigit then r.dropWhile Char.isDigit else s
  | _ => s

/-- Optional exponent part `([eE][-+]?\d+)?`: consumed only when the
exponent marker (and optional sign) is followed by at least one digit. -/
def parseExp (s : List Char) : List Char :=
  match s with
  | [] => s
  | c :: r =>
    if c = 'e' || c = 'E' then
      match r with
      | [] => s
      | c2 :: r2 =>
        if c2.isDigit then r2.dropWhile Char.isDigit
        else if c2 = '+' || c2 = '-' then
          match r2 with
          | [] => s
          | c3 :: r3 => if c3.isDigit then r3.dropWhile Char.isDigit else s
        else s
    else s

/-- Recognize a JSON number `-?(0|[1-9]\d*)(\.\d+)?([eE][-+]?\d+)?`,
maximal-munch as the scanner's regular expression matches it. -/
def parseNumber (s : List Char) : Option (List Char) :=
  let s1 := match s with
    | c :: r => if c = '-' then r else s
    | [] => s
  match parseIntPart s1 with
  | none => none
  | some r => some (parseExp (parseFrac r))

/-- Consume the expected character sequence `ks` from the head of the
input, as the scanner's literal comparisons for `true`, `false`, `null`,
`NaN` and `Infinity` do. -/
def stripPre : List Char → List Char → Option (List Char)
  | [], s => some s
  | _ :: _, [] => none
  | k :: ks, c :: s => if c = k then stripPre ks s else none

/-- Scanner behaviour after a leading minus sign: the number pattern
requires a digit next, and `-Infinity` is recognized as a literal. -/
def negBranch (r : List Char) : Option (List Char) :=
  match r with
  | 'I' :: _ => stripPre ['I', 'n', 'f', 'i', 'n', 'i', 't', 'y'] r
  | _ => parseNumber ('-' :: r)

mutual

/-- Fueled recognizer for one JSON value starting at the head of the
input (callers skip whitespace first), following the pure-Python
decoder's scanner: string, object, array, the literals, then the number
pattern.  Returns the remaining input. -/
def pVal : Nat → List Char → Option (List Char)
  | 0, _ => none
  | Nat.succ f, s =>
    match s with
    | [] => none
    | c :: r =>
      if c = qchar then parseString r
      else if c = lbrace then
        (match skipWs r with
         | [] => none
         | c2 :: r2 => if c2 = rbrace then some r2 else pMem f (c2 :: r2))
      else if c = '[' then
        (match skipWs r with
         | [] => none
         | c2 :: r2 => if c2 = ']' then some r2 else pElt f (c2 :: r2))
      else if c = 't' then stripPre ['t', 'r', 'u', 'e'] s
      else if c = 'f' then stripPre ['f', 'a', 'l', 's', 'e'] s
      else if c = 'n' then stripPre ['n', 'u', 'l', 'l'] s
      else if c = 'N' then stripPre ['N', 'a', 'N'] s
      else if c = 'I' then stripPre ['I', 'n', 'f', 'i', 'n', 'i', 't', 'y'] s
      else if c = '-' then negBranch r
      else parseNumber s

/-- Fueled recognizer for the members of an object, positioned at a key:
`"key" : value` pairs separated by commas, ended by a closing brace. -/
def pMem : Nat → List Char → Option (List Char)
  | 0, _ => none
  | Nat.succ f, s =>
    match s with
    | [] => none
    | c :: r =>
      if c = qchar then
        (match parseString r with
         | none => none
         | some r2 =>
           match skipWs r2 with
           | [] => none
           | c3 :: r3 =>
             if c3 = ':' then
               (match pVal f (skipWs r3) with
                | none => none
                | some r4 =>
                  match skipWs r4 with
                  | [] => none
                  | c5 :: r5 =>
                    if c5 = ',' then pMem f (skipWs r5)
                    else if c5 = rbrace then some r5
                    else none)
             else none)
      else none

/-- Fueled recognizer for the elements of an array, positioned at a
value: values separated by commas, ended by a closing bracket. -/
def pElt : Nat → List Char → Option (List Char)
  | 0, _ => none
  | Nat.succ f, s =>
    match pVal f s with
    | none => none
    | some r =>
      match skipWs r with
      | [] => none
      | c2 :: r2 =>
        if c2 = ',' then pElt f (skipWs r2)
        else if c2 = ']' then some r2
        else none

end

/-- Model of `json.loads(s)` succeeding: skip leading whitespace,
recognize exactly one JSON value, and require only whitespace to remain
(`"Extra data"` otherwise).  The fuel `2 * length + 2` dominates the
recognizer's call depth on any input. -/
def json_loads_ok (s : String) : Bool :=
  match pVal (2 * s.data.length + 2) (skipWs s.data) with
  | some r => (skipWs r).isEmpty
  | none => false

/-- One lowercase hexadecimal digit, as `%04x` formatting renders it. -/
def hexDig (n : Nat) : Char :=
  if n < 10 then Char.ofNat (48 + n) else Char.ofNat (87 + n)

/-- Four lowercase hexadecimal digits of `n < 0x10000`, as in `\u%04x`. -/
def hex4 (n : Nat) : List Char :=
  [hexDig (n / 4096 % 16), hexDig (n / 256 % 16), hexDig (n / 16 % 16), hexDig (n % 16)]

/-- Escape one character as `json.dumps` does with the default
`ensure_ascii=True`: the seven short escapes, `\uXXXX` for other control
and non-ASCII characters, a surrogate pair above `0xFFFF`, and the
character itself otherwise. -/
def escapeChar (c : Char) : List Char :=
  if c = qchar then [bslash, qchar]
  else if c = bslash then [bslash, bslash]
  else if c = '\n' then [bslash, 'n']
  else if c = '\r' then [bslash, 'r']
  else if c = '\t' then [bslash, 't']
  else if c.toNat = 8 then [bslash, 'b']
  else if c.toNat = 12 then [bslash, 'f']
  else if c.toNat < 32 || 126 < c.toNat then
    if c.toNat < 65536 then bslash :: 'u' :: hex4 c.toNat
    else bslash :: 'u' :: hex4 (55296 + (c.toNat - 65536) / 1024) ++
         bslash :: 'u' :: hex4 (56320 + (c.toNat - 65536) % 1024)
  else [c]

/-- Escape a character sequence for a JSON string literal. -/
def escapeList : List Char → List Char
  | [] => []
  | c :: l => escapeChar c ++ escapeList l

/-- A serialized JSON string literal: quote, escaped body, quote. -/
def dq (s : String) : List Char := qchar :: (escapeList s.data ++ [qchar])

/-- Character sequence of `json.dumps` applied to a three-key dictionary
of strings, with the default separators `", "` and `": "` and insertion
order preserved. -/
def dumps3chars (k1 v1 k2 v2 k3 v3 : String) : List Char :=
  lbrace ::
    (dq k1 ++ ':' :: ' ' :: dq v1 ++
     ',' :: ' ' :: dq k2 ++ ':' :: ' ' :: dq v2 ++
     ',' :: ' ' :: dq k3 ++ ':' :: ' ' :: dq v3 ++ [rbrace])

/-- Model of `json.dumps({k1: v1, k2: v2, k3: v3})` for string values. -/
def dumps3 (k1 v1 k2 v2 k3 v3 : String) : String :=
  String.mk (dumps3chars k1 v1 k2 v2 k3 v3)

/-- A role-tagged chat message, as passed to the completion call. -/
structure Message where
  role : String
  content : String
deriving DecidableEq

/-- A completion request: fixed model identifier, role-tagged messages,
token budget — the arguments of `client.chat.completions.create`. -/
structure CompletionRequest where
  model : String
  messages : List Message
  max_tokens : Nat
deriving DecidableEq

/-- Environment of opaque external collaborators: `create` models one
call of `client.chat.completions.create` returning the reply's text
content (`Except.ok`) or raising with message `str(e)` (`Except.error`);
`jsonDecodeErrStr` models `str(e)` of the `json.JSONDecodeError` that
`json.loads` raises on a given invalid text (deterministic in that
text). -/
structure Env where
  create : CompletionRequest → Except String String
  jsonDecodeErrStr : String → String

/-- Prompt assembled by `classification_agent`, with the input embedded
verbatim between the fixed instruction texts. -/
def classification_prompt (exception_details : String) : String :=
  "You are an expert in fund administration exception management. Based on the following exception details, classify the exception by type, priority, and complexity:\n\n"
  ++ exception_details ++
  "\n\nProvide your answer in a JSON format with keys \x27type\x27, \x27priority\x27, and \x27complexity\x27."

/-- The completion request issued by `classification_agent`. -/
def classification_request (exception_details : String) : CompletionRequest :=
  { model := "gpt-4",
    messages :=
      [Message.mk "system" "You are a classification expert. Always return valid JSON.",
       Message.mk "user" (classification_prompt exception_details)],
    max_tokens := 150 }

/-- Fallback emitted by `classification_agent` when `json.loads` fails on
the reply; `emsg` is the decode error's message. -/
def classification_fallback_invalid (emsg : String) : String :=
  dumps3 "type" "Error: Invalid response format" "priority" "N/A"
    "complexity" ("Failed to process the classification: " ++ emsg)

/-- Fallback emitted by `classification_agent` when any other exception
is raised during the call; `emsg` is `str(e)`. -/
def classification_fallback_system (emsg : String) : String :=
  dumps3 "type" "Error: System error" "priority" "N/A"
    "complexity" ("An unexpected error occurred: " ++ emsg)

/-- The classification agent: call the provider, return the reply when it
is valid JSON, otherwise a fallback.  The result is `Except.ok` in every
branch because the body's `try`/`except` catches every exception. -/
def classification_agent (env : Env) (exception_details : String) : Except String String :=
  match env.create (classification_request exception_details) with
  | Except.error e => Except.ok (classification_fallback_system e)
  | Except.ok content =>
    if json_loads_ok content then Except.ok content
    else Except.ok (classification_fallback_invalid (env.jsonDecodeErrStr content))

/-- Prompt assembled by `resolution_suggestion_agent`. -/
def resolution_prompt (exception_details : String) : String :=
  "You are a fund administration expert. Given the following exception details and historical resolution patterns, suggest a corrective action. Include a confidence score (as a percentage string) and rationale for your recommendation.\n\n"
  ++ exception_details ++
  "\n\nPresent your answer in a valid JSON format with the following structure:\n\x7b\x27suggestion\x27: \x27your suggestion here\x27, \x27confidence\x27: \x2785%\x27, \x27rationale\x27: \x27your rationale here\x27\x7d"

/-- The completion request issued by `resolution_suggestion_agent`. -/
def resolution_request (exception_details : String) : CompletionRequest :=
  { model := "gpt-4",
    messages :=
      [Message.mk "system" "You are a resolution suggestion expert. Always return valid JSON.",
       Message.mk "user" (resolution_prompt exception_details)],
    max_tokens := 200 }

/-- Fallback emitted by `resolution_suggestion_agent` when `json.loads`
fails on the reply. -/
def resolution_fallback_invalid (emsg : String) : String :=
  dumps3 "suggestion" "Error: Invalid response format" "confidence" "0%"
    "rationale" ("Failed to process the suggestion: " ++ emsg)

/-- Fallback emitted by `resolution_suggestion_agent` on any other
exception. -/
def resolution_fallback_system (emsg : String) : String :=
  dumps3 "suggestion" "Error: System error" "confidence" "0%"
    "rationale" ("An unexpected error occurred: " ++ emsg)

/-- The resolution suggestion agent, with the same catch-all structure as
`classification_agent`. -/
def resolution_suggestion_agent (env : Env) (exception_details : String) : Except String String :=
  match env.create (resolution_request exception_details) with
  | Except.error e => Except.ok (resolution_fallback_system e)
  | Except.ok content =>
    if json_loads_ok content then Except.ok content
    else Except.ok (resolution_fallback_invalid (env.jsonDecodeErrStr content))

/-- Prompt assembled by `explanation_agent` from its argument. -/
def explanation_prompt (suggestion_details : String) : String :=
  "Explain the following resolution suggestion in clear, concise natural language so that an operator can easily understand it:\n\n"
  ++ suggestion_details

/-- The completion request issued by `explanation_agent`. -/
def explanation_request (suggestion_details : String) : CompletionRequest :=
  { model := "gpt-4",
    messages :=
      [Message.mk "system" "You are an explanation expert.",
       Message.mk "user" (explanation_prompt suggestion_details)],
    max_tokens := 150 }

/-- The explanation agent: no `try`/`except`, so a provider exception
propagates to the caller (`Except.error`). -/
def explanation_agent (env : Env) (suggestion_details : String) : Except String String :=
  env.create (explanation_request suggestion_details)

/-- The `agents` dictionary of `process_exception`, in insertion order. -/
def agents (env : Env) : List (String × (String → Except String String)) :=
  [("classification", classification_agent env),
   ("resolution", resolution_suggestion_agent env),
   ("explanation", explanation_agent env)]

/-- Per-task collection in the coordinator: a normal completion stores
the returned text, a raised exception stores `"Error: " ++ str(e)`. -/
def collect : Except String String → String
  | Except.ok s => s
  | Except.error e => "Error: " ++ e

/-- The coordinator with the fan-out machinery made explicit: `spawn`
models the executor creation and task submission inside the outer `try`;
when it fails the outer `except` returns the empty mapping, otherwise
each agent is applied to the same `exception_details` and its result
collected into the mapping in submission order. -/
def process_exception_env (spawn : Except String Unit) (env : Env)
    (exception_details : String) : List (String × String) :=
  match spawn with
  | Except.error _ => []
  | Except.ok _ =>
    (agents env).map (fun p => (p.1, collect (p.2 exception_details)))

/-- `process_exception` in the normal environment, where executor
creation and submission succeed. -/
def process_exception (env : Env) (exception_details : String) : List (String × String) :=
  process_exception_env (Except.ok ()) env exception_details

/-- Message rendering of a decode error used by the concrete stub
environments in the witnesses. -/
def stubJsonErr : String → String := fun _ => "Expecting value: line 1 column 1 (char 0)"

/-- Stub environment whose provider always returns the valid JSON text
`"{}"`. -/
def envOkJson : Env := ⟨fun _ => Except.ok "\x7b\x7d", stubJsonErr⟩

/-- Stub environment whose provider always returns the invalid text
`"not json"`. -/
def envNotJson : Env := ⟨fun _ => Except.ok "not json", stubJsonErr⟩

/-- Stub environment whose provider always raises with message
`"boom"`. -/
def envAllFail : Env := ⟨fun _ => Except.error "boom", stubJsonErr⟩

/-- Stub environment where exactly the classification request (for input
`"x"`) raises and every other request returns `"{}"`. -/
def envClsFail : Env :=
  ⟨fun req => if req = classification_request "x" then Except.error "boom"
              else Except.ok "\x7b\x7d", stubJsonErr⟩

/-- Stub environment where exactly the explanation request (for input
`"x"`) raises and every other request returns `"{}"`. -/
def envExpFail : Env :=
  ⟨fun req => if req = explanation_request "x" then Except.error "boom"
              else Except.ok "\x7b\x7d", stubJsonErr⟩

/-- Stub environment where exactly the resolution request (for input
`"x"`) raises and every other request returns `"{}"`. -/
def envResFail : Env :=
  ⟨fun req => if req = resolution_request "x" then Except.error "boom"
              else Except.ok "\x7b\x7d", stubJsonErr⟩

lemma skipWs_not_ws (c : Char) (l : List Char) (h : isWsChar c = false) :
    skipWs (c :: l) = c :: l := by
  simp [skipWs, List.dropWhile_cons, h]

lemma skipWs_sp (l : List Char) : skipWs (' ' :: l) = skipWs l := by
  have h : isWsChar ' ' = true := by decide
  simp [skipWs, List.dropWhile_cons, h]

lemma parseString_qchar (r : List Char) : parseString (qchar :: r) = some r := by
  rw [parseString.eq_def]
  simp

lemma parseString_plain (c : Char) (r : List Char) (h1 : ¬ c = qchar)
    (h2 : ¬ c = bslash) (h3 : ¬ c.toNat < 32) :
    parseString (c :: r) = parseString r := by
  rw [parseString.eq_def]
  simp [h1, h2, h3]

lemma parseString_simpleEsc (e : Char) (r : List Char) (hu : ¬ e = 'u')
    (he : simpleEsc e = true) : parseString (bslash :: e :: r) = parseString r := by
  rw [parseString.eq_def]
  simp [hu, he, show ¬ bslash = qchar from by decide]

lemma isHexDig_hexDig (n : Nat) : isHexDig (hexDig (n % 16)) = true := by
  have h : n % 16 < 16 := Nat.mod_lt _ (by norm_num)
  set m := n % 16 with hm
  interval_cases m <;> decide

lemma parseString_hex4 (n : Nat) (r : List Char) :
    parseString (bslash :: 'u' :: (hex4 n ++ r)) = parseString r := by
  rw [parseString.eq_def]
  simp [hex4, isHexDig_hexDig, show ¬ bslash = qchar from by decide]

lemma parseString_escapeChar (c : Char) (x : List Char) :
    parseString (escapeChar c ++ x) = parseString x := by
  unfold escapeChar
  split_ifs with h1 h2 h3 h4 h5 h6 h7 h8 h9
  · exact parseString_simpleEsc qchar x (by decide) (by decide)
  · exact parseString_simpleEsc bslash x (by decide) (by decide)
  · exact parseString_simpleEsc 'n' x (by decide) (by decide)
  · exact parseString_simpleEsc 'r' x (by decide) (by decide)
  · exact parseString_simpleEsc 't' x (by decide) (by decide)
  · exact parseString_simpleEsc 'b' x (by decide) (by decide)
  · exact parseString_simpleEsc 'f' x (by decide) (by decide)
  · simpa using parseString_hex4 c.toNat x
  · have h2 := parseString_hex4 (56320 + (c.toNat - 65536) % 1024) x
    have h1x := parseString_hex4 (55296 + (c.toNat - 65536) / 1024)
      (bslash :: 'u' :: (hex4 (56320 + (c.toNat - 65536) % 1024) ++ x))
    simp only [List.cons_append, List.append_assoc, List.nil_append] at h1x ⊢
    rw [h1x, h2]
  · have hr : 32 ≤ c.toNat ∧ c.toNat ≤ 126 := by simpa using h8
    exact parseString_plain c x h1 h2 (by omega)

lemma parseString_escape (l x : List Char) :
    parseString (escapeList l ++ (qchar :: x)) = some x := by
  induction l with
  | nil => simpa [escapeList] using parseString_qchar x
  | cons c l ih =>
    simp only [escapeList, List.append_assoc]
    rw [parseString_escapeChar]
    exact ih

lemma pVal_str (f : Nat) (s : String) (Z : List Char) :
    pVal (f + 1) (qchar :: (escapeList s.data ++ (qchar :: Z))) = some Z := by
  rw [pVal.eq_def]
  simp [parseString_escape]

lemma pMem_kv (f : Nat) (k v : String) (Z : List Char) :
    pMem (f + 2)
      (qchar :: (escapeList k.data ++
        (qchar :: ':' :: ' ' :: qchar :: (escapeList v.data ++ (qchar :: Z))))) =
    (match skipWs Z with
     | [] => none
     | c5 :: r5 =>
       if c5 = ',' then pMem (f + 1) (skipWs r5)
       else if c5 = rbrace then some r5
       else none) := by
  rw [pMem.eq_def]
  have hcolon : isWsChar ':' = false := by decide
  have hq : isWsChar qchar = false := by decide
  simp [parseString_escape, skipWs_not_ws, skipWs_sp, hcolon, hq, pVal_str]

lemma dumps3chars_eq (k1 v1 k2 v2 k3 v3 : String) :
    dumps3chars k1 v1 k2 v2 k3 v3 =
      lbrace :: qchar :: (escapeList k1.data ++
        (qchar :: ':' :: ' ' :: qchar :: (escapeList v1.data ++
          (qchar :: ',' :: ' ' :: qchar :: (escapeList k2.data ++
            (qchar :: ':' :: ' ' :: qchar :: (escapeList v2.data ++
              (qchar :: ',' :: ' ' :: qchar :: (escapeList k3.data ++
                (qchar :: ':' :: ' ' :: qchar :: (escapeList v3.data ++
                  (qchar :: [rbrace])))))))))))) := by
  simp [dumps3chars, dq, List.append_assoc]

theorem pVal_dumps3 (f : Nat) (k1 v1 k2 v2 k3 v3 : String) :
    pVal (f + 5) (dumps3chars k1 v1 k2 v2 k3 v3) = some [] := by
  rw [dumps3chars_eq, pVal.eq_def]
  have hq : isWsChar qchar = false := by decide
  have hcm : isWsChar ',' = false := by decide
  have hrb : isWsChar rbrace = false := by decide
  have hlb1 : ¬ lbrace = qchar := by decide
  have hqrb : ¬ qchar = rbrace := by decide
  simp only [hlb1, if_neg, if_pos, skipWs_not_ws _ _ hq]
  simp only [if_false, if_neg hqrb]
  have s1 := pMem_kv (f + 2) k1 v1
    (',' :: ' ' :: qchar :: (escapeList k2.data ++
      (qchar :: ':' :: ' ' :: qchar :: (escapeList v2.data ++
        (qchar :: ',' :: ' ' :: qchar :: (escapeList k3.data ++
          (qchar :: ':' :: ' ' :: qchar :: (escapeList v3.data ++
            (qchar :: [rbrace])))))))))
  have s2 := pMem_kv (f + 1) k2 v2
    (',' :: ' ' :: qchar :: (escapeList k3.data ++
      (qchar :: ':' :: ' ' :: qchar :: (escapeList v3.data ++ (qchar :: [rbrace])))))
  have s3 := pMem_kv f k3 v3 [rbrace]
  simp only [skipWs_not_ws _ _ hcm, skipWs_not_ws _ _ hrb, skipWs_sp,
    skipWs_not_ws _ _ hq] at s1 s2 s3
  rw [show f + 2 + 2 = f + 4 from rfl] at s1
  rw [show f + 1 + 2 = f + 3 from rfl] at s2
  simp only [if_true, ite_true, if_pos (rfl : (',' : Char) = ',')] at s1 s2
  simp only [show (rbrace = ',') = False from by decide, if_false, ite_false,
    if_true, ite_true] at s3
  rw [s1, show f + 2 + 1 = f + 3 from rfl, s2, show f + 1 + 1 = f + 2 from rfl, s3]

/-- Any fallback object the agents serialize with `json.dumps` is
accepted by the model of `json.loads`: escaping and parsing agree. -/
theorem json_loads_ok_dumps3 (k1 v1 k2 v2 k3 v3 : String) :
    json_loads_ok (dumps3 k1 v1 k2 v2 k3 v3) = true := by
  unfold json_loads_ok
  have hdata : (dumps3 k1 v1 k2 v2 k3 v3).data = dumps3chars k1 v1 k2 v2 k3 v3 := rfl
  rw [hdata]
  have hlb : isWsChar lbrace = false := by decide
  have hskip : skipWs (dumps3chars k1 v1 k2 v2 k3 v3) =
      dumps3chars k1 v1 k2 v2 k3 v3 := by
    rw [dumps3chars_eq]
    exact skipWs_not_ws _ _ hlb
  rw [hskip]
  have hlen : 2 ≤ (dumps3chars k1 v1 k2 v2 k3 v3).length := by
    rw [dumps3chars_eq]
    simp
  obtain ⟨g, hg⟩ : ∃ g, 2 * (dumps3chars k1 v1 k2 v2 k3 v3).length + 2 = g + 5 :=
    ⟨2 * (dumps3chars k1 v1 k2 v2 k3 v3).length - 3, by omega⟩
  rw [hg, pVal_dumps3]
  rfl

lemma classification_entry (env : Env) (t : String) :
    List.lookup "classification" (process_exception env t) =
      some (collect (classification_agent env t)) := rfl

lemma resolution_entry (env : Env) (t : String) :
    List.lookup "resolution" (process_exception env t) =
      some (collect (resolution_suggestion_agent env t)) := rfl

lemma explanation_entry (env : Env) (t : String) :
    List.lookup "explanation" (process_exception env t) =
      some (collect (explanation_agent env t)) := rfl

lemma classification_agent_of_ok {env : Env} {t content : String}
    (h : env.create (classification_request t) = Except.ok content)
    (hv : json_loads_ok content = true) :
    classification_agent env t = Except.ok content := by
  simp [classification_agent, h, hv]

lemma classification_agent_of_invalid {env : Env} {t content : String}
    (h : env.create (classification_request t) = Except.ok content)
    (hv : json_loads_ok content = false) :
    classification_agent env t =
      Except.ok (classification_fallback_invalid (env.jsonDecodeErrStr content)) := by
  simp [classification_agent, h, hv]

lemma classification_agent_of_error {env : Env} {t e : String}
    (h : env.create (classification_request t) = Except.error e) :
    classification_agent env t = Except.ok (classification_fallback_system e) := by
  simp [classification_agent, h]

lemma resolution_agent_of_ok {env : Env} {t content : String}
    (h : env.create (resolution_request t) = Except.ok content)
    (hv : json_loads_ok content = true) :
    resolution_suggestion_agent env t = Except.ok content := by
  simp [resolution_suggestion_agent, h, hv]

lemma resolution_agent_of_invalid {env : Env} {t content : String}
    (h : env.create (resolution_request t) = Except.ok content)
    (hv : json_loads_ok content = false) :
    resolution_suggestion_agent env t =
      Except.ok (resolution_fallback_invalid (env.jsonDecodeErrStr content)) := by
  simp [resolution_suggestion_agent, h, hv]

lemma resolution_agent_of_error {env : Env} {t e : String}
    (h : env.create (resolution_request t) = Except.error e) :
    resolution_suggestion_agent env t = Except.ok (resolution_fallback_system e) := by
  simp [resolution_suggestion_agent, h]

lemma classification_agent_total (env : Env) (t : String) :
    ∃ s, classification_agent env t = Except.ok s ∧ json_loads_ok s = true := by
  rcases h : env.create (classification_request t) with e | content
  · exact ⟨_, classification_agent_of_error h,
      json_loads_ok_dumps3 "type" "Error: System error" "priority" "N/A"
        "complexity" ("An unexpected error occurred: " ++ e)⟩
  · rcases hv : json_loads_ok content with _ | _
    · exact ⟨_, classification_agent_of_invalid h hv,
        json_loads_ok_dumps3 "type" "Error: Invalid response format" "priority" "N/A"
          "complexity" ("Failed to process the classification: " ++
            env.jsonDecodeErrStr content)⟩
    · exact ⟨content, classification_agent_of_ok h hv, hv⟩

lemma resolution_agent_total (env : Env) (t : String) :
    ∃ s, resolution_suggestion_agent env t = Except.ok s ∧ json_loads_ok s = true := by
  rcases h : env.create (resolution_request t) with e | content
  · exact ⟨_, resolution_agent_of_error h,
      json_loads_ok_dumps3 "suggestion" "Error: System error" "confidence" "0%"
        "rationale" ("An unexpected error occurred: " ++ e)⟩
  · rcases hv : json_loads_ok content with _ | _
    · exact ⟨_, resolution_agent_of_invalid h hv,
        json_loads_ok_dumps3 "suggestion" "Error: Invalid response format" "confidence" "0%"
          "rationale" ("Failed to process the suggestion: " ++
            env.jsonDecodeErrStr content)⟩
    · exact ⟨content, resolution_agent_of_ok h hv, hv⟩



/-- C1: for every provider behaviour and every input text `t` (the empty
string and arbitrarily long text included), `process_exception t` returns
a mapping whose key set is exactly classification, resolution,
explanation; as a total function into association lists it never raises
to its caller. -/
theorem claim_c1_keys_exact_never_raises (env : Env) (t : String) :
    (process_exception env t).map Prod.fst =
      ["classification", "resolution", "explanation"] ∧
    ∃ a b c, process_exception env t =
      [("classification", a), ("resolution", b), ("explanation", c)] :=
  ⟨rfl, _, _, _, rfl⟩

/-- C2: for every provider behaviour and input, the classification and
resolution entries emitted by the core are syntactically valid JSON
text, each being either the provider's genuine output (when it parses)
or one of the deterministic fallback objects with the required keys. -/
lemma classification_entry_of_ok {env : Env} {t content : String}
    (h : env.create (classification_request t) = Except.ok content)
    (hv : json_loads_ok content = true) :
    List.lookup "classification" (process_exception env t) = some content := by
  rw [classification_entry, classification_agent_of_ok h hv]
  rfl

lemma classification_entry_of_invalid {env : Env} {t content : String}
    (h : env.create (classification_request t) = Except.ok content)
    (hv : json_loads_ok content = false) :
    List.lookup "classification" (process_exception env t) =
      some (classification_fallback_invalid (env.jsonDecodeErrStr content)) := by
  rw [classification_entry, classification_agent_of_invalid h hv]
  rfl

lemma classification_entry_of_error {env : Env} {t e : String}
    (h : env.create (classification_request t) = Except.error e) :
    List.lookup "classification" (process_exception env t) =
      some (classification_fallback_system e) := by
  rw [classification_entry, classification_agent_of_error h]
  rfl

lemma resolution_entry_of_ok {env : Env} {t content : String}
    (h : env.create (resolution_request t) = Except.ok content)
    (hv : json_loads_ok content = true) :
    List.lookup "resolution" (process_exception env t) = some content := by
  rw [resolution_entry, resolution_agent_of_ok h hv]
  rfl

lemma resolution_entry_of_invalid {env : Env} {t content : String}
    (h : env.create (resolution_request t) = Except.ok content)
    (hv : json_loads_ok content = false) :
    List.lookup "resolution" (process_exception env t) =
      some (resolution_fallback_invalid (env.jsonDecodeErrStr content)) := by
  rw [resolution_entry, resolution_agent_of_invalid h hv]
  rfl

lemma resolution_entry_of_error {env : Env} {t e : String}
    (h : env.create (resolution_request t) = Except.error e) :
    List.lookup "resolution" (process_exception env t) =
      some (resolution_fallback_system e) := by
  rw [resolution_entry, resolution_agent_of_error h]
  rfl

lemma classification_entry_cases (env : Env) (t : String) :
    ∃ c, List.lookup "classification" (process_exception env t) = some c ∧
      json_loads_ok c = true ∧
      (env.create (classification_request t) = Except.ok c ∨
        (∃ m, c = dumps3 "type" "Error: Invalid response format" "priority" "N/A"
          "complexity" m) ∨
        (∃ m, c = dumps3 "type" "Error: System error" "priority" "N/A"
          "complexity" m)) := by
  rcases hc : env.create (classification_request t) with e | content
  · exact ⟨_, classification_entry_of_error hc, json_loads_ok_dumps3 _ _ _ _ _ _,
      Or.inr (Or.inr ⟨_, rfl⟩)⟩
  · rcases hv : json_loads_ok content with _ | _
    · exact ⟨_, classification_entry_of_invalid hc hv, json_loads_ok_dumps3 _ _ _ _ _ _,
        Or.inr (Or.inl ⟨_, rfl⟩)⟩
    · exact ⟨content, classification_entry_of_ok hc hv, hv, Or.inl rfl⟩

lemma resolution_entry_cases (env : Env) (t : String) :
    ∃ r, List.lookup "resolution" (process_exception env t) = some r ∧
      json_loads_ok r = true ∧
      (env.create (resolution_request t) = Except.ok r ∨
        (∃ m, r = dumps3 "suggestion" "Error: Invalid response format" "confidence" "0%"
          "rationale" m) ∨
        (∃ m, r = dumps3 "suggestion" "Error: System error" "confidence" "0%"
          "rationale" m)) := by
  rcases hr : env.create (resolution_request t) with e | content
  · exact ⟨_, resolution_entry_of_error hr, json_loads_ok_dumps3 _ _ _ _ _ _,
      Or.inr (Or.inr ⟨_, rfl⟩)⟩
  · rcases hv : json_loads_ok content with _ | _
    · exact ⟨_, resolution_entry_of_invalid hr hv, json_loads_ok_dumps3 _ _ _ _ _ _,
        Or.inr (Or.inl ⟨_, rfl⟩)⟩
    · exact ⟨content, resolution_entry_of_ok hr hv, hv, Or.inl rfl⟩

/-- C2: for every provider behaviour and input, the classification and
resolution entries emitted by the core are syntactically valid JSON
text, each being either the provider's genuine output (when it parses)
or one of the deterministic fallback objects with the required keys. -/
theorem claim_c2_core_emits_valid_json (env : Env) (t : String) :
    ∃ c r,
      List.lookup "classification" (process_exception env t) = some c ∧
      json_loads_ok c = true ∧
      List.lookup "resolution" (process_exception env t) = some r ∧
      json_loads_ok r = true ∧
      (env.create (classification_request t) = Except.ok c ∨
        (∃ m, c = dumps3 "type" "Error: Invalid response format" "priority" "N/A"
          "complexity" m) ∨
        (∃ m, c = dumps3 "type" "Error: System error" "priority" "N/A"
          "complexity" m)) ∧
      (env.create (resolution_request t) = Except.ok r ∨
        (∃ m, r = dumps3 "suggestion" "Error: Invalid response format" "confidence" "0%"
          "rationale" m) ∨
        (∃ m, r = dumps3 "suggestion" "Error: System error" "confidence" "0%"
          "rationale" m)) := by
  obtain ⟨c, h1, h2, h3⟩ := classification_entry_cases env t
  obtain ⟨r, h4, h5, h6⟩ := resolution_entry_cases env t
  exact ⟨c, r, h1, h2, h4, h5, h3, h6⟩

/-- C3: whenever the provider's reply for the classification or
resolution request is syntactically valid JSON, the pipeline returns
that reply unchanged — the agent result and the coordinator entry are
the very same string, not a re-serialization. -/
theorem claim_c3_valid_json_passthrough (env : Env) (t c r : String)
    (hc : env.create (classification_request t) = Except.ok c)
    (hcv : json_loads_ok c = true)
    (hr : env.create (resolution_request t) = Except.ok r)
    (hrv : json_loads_ok r = true) :
    classification_agent env t = Except.ok c ∧
    resolution_suggestion_agent env t = Except.ok r ∧
    List.lookup "classification" (process_exception env t) = some c ∧
    List.lookup "resolution" (process_exception env t) = some r :=
  ⟨classification_agent_of_ok hc hcv, resolution_agent_of_ok hr hrv,
   classification_entry_of_ok hc hcv, resolution_entry_of_ok hr hrv⟩

/-- Witness for C3 at the concrete stub that always replies `"{}"`. -/
theorem claim_c3_witness :
    json_loads_ok "\x7b\x7d" = true ∧
    List.lookup "classification" (process_exception envOkJson "t") = some "\x7b\x7d" ∧
    List.lookup "resolution" (process_exception envOkJson "t") = some "\x7b\x7d" := by
  have h := claim_c3_valid_json_passthrough envOkJson "t" "\x7b\x7d" "\x7b\x7d"
    rfl (by decide) rfl (by decide)
  exact ⟨by decide, h.2.2.1, h.2.2.2⟩

/-- C4: when the provider's reply for classification or resolution is
not valid JSON, the entry is the serialized fallback object with the
target shape's keys, primary field `"Error: Invalid response format"`
(`"Error: System error"` when the call raised instead), resolution
confidence `"0%"`, and every such fallback is itself valid JSON. -/
theorem claim_c4_fallback_objects (env1 env2 : Env) (t c e : String)
    (h1c : env1.create (classification_request t) = Except.ok c)
    (h1r : env1.create (resolution_request t) = Except.ok c)
    (hbad : json_loads_ok c = false)
    (h2c : env2.create (classification_request t) = Except.error e)
    (h2r : env2.create (resolution_request t) = Except.error e) :
    List.lookup "classification" (process_exception env1 t) =
      some (dumps3 "type" "Error: Invalid response format" "priority" "N/A"
        "complexity" ("Failed to process the classification: " ++ env1.jsonDecodeErrStr c)) ∧
    List.lookup "resolution" (process_exception env1 t) =
      some (dumps3 "suggestion" "Error: Invalid response format" "confidence" "0%"
        "rationale" ("Failed to process the suggestion: " ++ env1.jsonDecodeErrStr c)) ∧
    List.lookup "classification" (process_exception env2 t) =
      some (dumps3 "type" "Error: System error" "priority" "N/A"
        "complexity" ("An unexpected error occurred: " ++ e)) ∧
    List.lookup "resolution" (process_exception env2 t) =
      some (dumps3 "suggestion" "Error: System error" "confidence" "0%"
        "rationale" ("An unexpected error occurred: " ++ e)) ∧
    json_loads_ok (dumps3 "type" "Error: Invalid response format" "priority" "N/A"
      "complexity" ("Failed to process the classification: " ++ env1.jsonDecodeErrStr c)) = true ∧
    json_loads_ok (dumps3 "suggestion" "Error: Invalid response format" "confidence" "0%"
      "rationale" ("Failed to process the suggestion: " ++ env1.jsonDecodeErrStr c)) = true ∧
    json_loads_ok (dumps3 "type" "Error: System error" "priority" "N/A"
      "complexity" ("An unexpected error occurred: " ++ e)) = true ∧
    json_loads_ok (dumps3 "suggestion" "Error: System error" "confidence" "0%"
      "rationale" ("An unexpected error occurred: " ++ e)) = true :=
  ⟨classification_entry_of_invalid h1c hbad, resolution_entry_of_invalid h1r hbad,
   classification_entry_of_error h2c, resolution_entry_of_error h2r,
   json_loads_ok_dumps3 _ _ _ _ _ _, json_loads_ok_dumps3 _ _ _ _ _ _,
   json_loads_ok_dumps3 _ _ _ _ _ _, json_loads_ok_dumps3 _ _ _ _ _ _⟩

/-- Witness for C4 at the concrete stubs replying `"not json"`
respectively raising `"boom"`. -/
theorem claim_c4_witness :
    json_loads_ok "not json" = false ∧
    List.lookup "resolution" (process_exception envNotJson "t") =
      some (dumps3 "suggestion" "Error: Invalid response format" "confidence" "0%"
        "rationale" ("Failed to process the suggestion: " ++
          envNotJson.jsonDecodeErrStr "not json")) ∧
    List.lookup "classification" (process_exception envAllFail "t") =
      some (dumps3 "type" "Error: System error" "priority" "N/A"
        "complexity" ("An unexpected error occurred: " ++ "boom")) := by
  have h := claim_c4_fallback_objects envNotJson envAllFail "t" "not json" "boom"
    rfl rfl (by decide) rfl rfl
  exact ⟨by decide, h.2.1, h.2.2.1⟩

/-- C6: if the fan-out machinery itself fails (any exception escaping
the executor block), the coordinator returns the empty mapping instead
of raising. -/
theorem claim_c6_submission_failure_empty_mapping (env : Env) (t e : String) :
    process_exception_env (Except.error e) env t = [] := rfl

set_option maxRecDepth 8192 in
/-- C5 counterexample: at the concrete stub where exactly the
classification task's provider call raises (message `"boom"`), the
classification entry is the System-error fallback JSON object — it is
not the coordinator-synthesized string `"Error: boom"`, and it does not
even begin with `"Error:"`, because `classification_agent` catches the
exception internally before the coordinator could synthesize one. -/
theorem claim_c5_counterexample :
    List.lookup "classification" (process_exception envClsFail "x") =
      some (classification_fallback_system "boom") ∧
    classification_fallback_system "boom" ≠ "Error: boom" ∧
    List.isPrefixOf ("Error:".data) ((classification_fallback_system "boom").data) = false :=
  ⟨classification_entry_of_error rfl, by decide, by decide⟩

/-- C5 amended: if exactly one task's provider call raises, the other
two tasks' entries are still present and well-formed; the failing task's
entry is the synthesized string `"Error: <message>"` only when the
failing task is the explanation task (which has no internal handler) —
when it is the classification (or resolution) task, the agent catches
the exception itself and the entry is the System-error fallback JSON
instead. -/
theorem claim_c5_single_failure_isolation (envE envC envR : Env)
    (t e r x c2 y : String)
    (hE : envE.create (explanation_request t) = Except.error e)
    (hC1 : envC.create (classification_request t) = Except.error e)
    (hC2 : envC.create (resolution_request t) = Except.ok r)
    (hC2v : json_loads_ok r = true)
    (hC3 : envC.create (explanation_request t) = Except.ok x)
    (hR1 : envR.create (resolution_request t) = Except.error e)
    (hR2 : envR.create (classification_request t) = Except.ok c2)
    (hR2v : json_loads_ok c2 = true)
    (hR3 : envR.create (explanation_request t) = Except.ok y) :
    List.lookup "explanation" (process_exception envE t) = some ("Error: " ++ e) ∧
    (∃ c, List.lookup "classification" (process_exception envE t) = some c ∧
      json_loads_ok c = true) ∧
    (∃ s, List.lookup "resolution" (process_exception envE t) = some s ∧
      json_loads_ok s = true) ∧
    List.lookup "classification" (process_exception envC t) =
      some (classification_fallback_system e) ∧
    List.lookup "resolution" (process_exception envC t) = some r ∧
    List.lookup "explanation" (process_exception envC t) = some x ∧
    List.lookup "resolution" (process_exception envR t) =
      some (resolution_fallback_system e) ∧
    List.lookup "classification" (process_exception envR t) = some c2 ∧
    List.lookup "explanation" (process_exception envR t) = some y := by
  refine ⟨?_, ?_, ?_, classification_entry_of_error hC1,
    resolution_entry_of_ok hC2 hC2v, ?_, resolution_entry_of_error hR1,
    classification_entry_of_ok hR2 hR2v, ?_⟩
  · rw [explanation_entry, explanation_agent, hE]
    rfl
  · obtain ⟨c, h1, h2, _⟩ := classification_entry_cases envE t
    exact ⟨c, h1, h2⟩
  · obtain ⟨s, h1, h2, _⟩ := resolution_entry_cases envE t
    exact ⟨s, h1, h2⟩
  · rw [explanation_entry, explanation_agent, hC3]
    rfl
  · rw [explanation_entry, explanation_agent, hR3]
    rfl

set_option maxRecDepth 8192 in
/-- Witness for the amended C5 at concrete stubs where exactly the
explanation task, exactly the classification task, respectively exactly
the resolution task raises. -/
theorem claim_c5_witness :
    List.lookup "explanation" (process_exception envExpFail "x") =
      some ("Error: " ++ "boom") ∧
    List.lookup "classification" (process_exception envClsFail "x") =
      some (classification_fallback_system "boom") ∧
    List.lookup "resolution" (process_exception envClsFail "x") = some "\x7b\x7d" ∧
    List.lookup "resolution" (process_exception envResFail "x") =
      some (resolution_fallback_system "boom") ∧
    List.lookup "classification" (process_exception envResFail "x") = some "\x7b\x7d" ∧
    List.lookup "explanation" (process_exception envResFail "x") = some "\x7b\x7d" := by
  have h := claim_c5_single_failure_isolation envExpFail envClsFail envResFail
    "x" "boom" "\x7b\x7d" "\x7b\x7d" "\x7b\x7d" "\x7b\x7d"
    rfl rfl rfl (by decide) rfl rfl rfl (by decide) rfl
  exact ⟨h.1, h.2.2.2.1, h.2.2.2.2.1, h.2.2.2.2.2.2.1, h.2.2.2.2.2.2.2.1,
    h.2.2.2.2.2.2.2.2⟩

/-- C7: determinism — two environments whose provider stubs and decode
error renderings agree pointwise (one deterministic stub queried twice)
produce identical output mappings for the same input. -/
theorem claim_c7_deterministic_idempotent (env1 env2 : Env) (t : String)
    (hcreate : ∀ req, env1.create req = env2.create req)
    (herr : ∀ s, env1.jsonDecodeErrStr s = env2.jsonDecodeErrStr s) :
    process_exception env1 t = process_exception env2 t := by
  simp only [process_exception, process_exception_env, agents, List.map,
    classification_agent, resolution_suggestion_agent, explanation_agent,
    hcreate, herr]

/-- Witness for C7 at a concrete deterministic stub. -/
theorem claim_c7_witness :
    process_exception envOkJson "t" = process_exception envOkJson "t" :=
  claim_c7_deterministic_idempotent envOkJson envOkJson "t"
    (fun _ => rfl) (fun _ => rfl)

/-- C8: the explanation task is applied to the same raw exception text
as the other two tasks — its request embeds the raw input, every agent
receives the identical input string, and the explanation entry depends
only on the provider's answer to the explanation request (so it is not
chained after the resolution task's output). -/
theorem claim_c8_explanation_not_chained (env1 env2 : Env) (t : String)
    (h : env1.create (explanation_request t) = env2.create (explanation_request t)) :
    explanation_request t =
      { model := "gpt-4",
        messages :=
          [Message.mk "system" "You are an explanation expert.",
           Message.mk "user"
             ("Explain the following resolution suggestion in clear, concise natural language so that an operator can easily understand it:\n\n"
               ++ t)],
        max_tokens := 150 } ∧
    process_exception env1 t =
      [("classification", collect (classification_agent env1 t)),
       ("resolution", collect (resolution_suggestion_agent env1 t)),
       ("explanation", collect (explanation_agent env1 t))] ∧
    List.lookup "explanation" (process_exception env1 t) =
      List.lookup "explanation" (process_exception env2 t) := by
  refine ⟨rfl, rfl, ?_⟩
  rw [explanation_entry, explanation_entry, explanation_agent, explanation_agent, h]

set_option maxRecDepth 8192 in
/-- Witness for C8 at two stubs that agree on the explanation request
but disagree on the classification request. -/
theorem claim_c8_witness :
    List.lookup "explanation" (process_exception envOkJson "x") =
      List.lookup "explanation" (process_exception envClsFail "x") :=
  (claim_c8_explanation_not_chained envOkJson envClsFail "x" rfl).2.2

/-- C9: each builder issues a fixed system-role instruction, a user-role
message embedding the input verbatim between fixed texts, and token
budgets 150 (classification), 200 (resolution), 150 (explanation). -/
theorem claim_c9_request_shapes (t : String) :
    classification_request t =
      { model := "gpt-4",
        messages :=
          [Message.mk "system" "You are a classification expert. Always return valid JSON.",
           Message.mk "user"
             ("You are an expert in fund administration exception management. Based on the following exception details, classify the exception by type, priority, and complexity:\n\n"
               ++ t ++
               "\n\nProvide your answer in a JSON format with keys \x27type\x27, \x27priority\x27, and \x27complexity\x27.")],
        max_tokens := 150 } ∧
    resolution_request t =
      { model := "gpt-4",
        messages :=
          [Message.mk "system" "You are a resolution suggestion expert. Always return valid JSON.",
           Message.mk "user"
             ("You are a fund administration expert. Given the following exception details and historical resolution patterns, suggest a corrective action. Include a confidence score (as a percentage string) and rationale for your recommendation.\n\n"
               ++ t ++
               "\n\nPresent your answer in a valid JSON format with the following structure:\n\x7b\x27suggestion\x27: \x27your suggestion here\x27, \x27confidence\x27: \x2785%\x27, \x27rationale\x27: \x27your rationale here\x27\x7d")],
        max_tokens := 200 } ∧
    explanation_request t =
      { model := "gpt-4",
        messages :=
          [Message.mk "system" "You are an explanation expert.",
           Message.mk "user"
             ("Explain the following resolution suggestion in clear, concise natural language so that an operator can easily understand it:\n\n"
               ++ t)],
        max_tokens := 150 } :=
  ⟨rfl, rfl, rfl⟩

/-- C10: the coordinator's per-task `"Error: <message>"` branch is
unreachable for the classification and resolution tasks — those agents
catch every exception internally and always complete with a string, so
their entries are their own results; only the explanation task, which
has no internal handler, can make the coordinator synthesize an
`"Error: <message>"` entry. -/
theorem claim_c10_error_branch_only_explanation (env : Env) (t : String) :
    (∃ s, classification_agent env t = Except.ok s ∧
      List.lookup "classification" (process_exception env t) = some s) ∧
    (∃ s, resolution_suggestion_agent env t = Except.ok s ∧
      List.lookup "resolution" (process_exception env t) = some s) ∧
    (∀ e, explanation_agent env t = Except.error e →
      List.lookup "explanation" (process_exception env t) = some ("Error: " ++ e)) := by
  refine ⟨?_, ?_, ?_⟩
  · obtain ⟨s, hs, _⟩ := classification_agent_total env t
    exact ⟨s, hs, by rw [classification_entry, hs]; rfl⟩
  · obtain ⟨s, hs, _⟩ := resolution_agent_total env t
    exact ⟨s, hs, by rw [resolution_entry, hs]; rfl⟩
  · intro e he
    rw [explanation_entry, he]
    rfl

set_option maxRecDepth 8192 in
/-- Witness for C10 at the stub where exactly the explanation task
raises. -/
theorem claim_c10_witness :
    List.lookup "explanation" (process_exception envExpFail "x") =
      some ("Error: " ++ "boom") :=
  (claim_c10_error_branch_only_explanation envExpFail "x").2.2 "boom" rfl
